import Mathlib

/-!
Verification of the databricks-notebook translation workflow
(`src/notebook.py` and `src/databricks_notebook/__init__.py`).

Strings are embedded as `List Char` (Python `str`), so that the renderer's
prefix tests (`line.startswith('- ')`), slicing (`line[2:]`) and
concatenation translate to list operations with the same behaviour.
The two modules share the polling loop, the diff renderer and the report
builder verbatim; the module-level host and API-key state exists only in
`databricks_notebook/__init__.py` and is embedded from there.
-/

/-- Python `str`, embedded as its character sequence. -/
abbrev Str := List Char

/-- Python `s.startswith(p)` (from the renderer's prefix tests). -/
def startswith (s p : Str) : Bool := List.isPrefixOf p s

/-- Python `str.splitlines` restricted to the `\n` line boundary: a trailing
newline produces no trailing empty line, and the empty string yields no
lines (`"".splitlines() == []`). -/
def splitlinesAux : List Char → List Char → List (List Char)
  | [], [] => []
  | [], acc => [acc.reverse]
  | c :: rest, acc =>
    if c = '\n' then acc.reverse :: splitlinesAux rest []
    else splitlinesAux rest (c :: acc)

/-- Python `text.splitlines()` as used on `source_sql` and `target_sql`. -/
def splitlines (s : Str) : List Str := splitlinesAux s []

/-- Python `model['target_sql'] or ''`: `None` (and the empty string itself)
coerce to the empty text. -/
def orEmpty : Option Str → Str
  | none => []
  | some s => s

/-- Two-character prefix of a common line in the differ output (`'  '`). -/
def commonPre : Str := [' ', ' ']

/-- Two-character prefix of a source-only line (`'- '`). -/
def removedPre : Str := ['-', ' ']

/-- Two-character prefix of a target-only line (`'+ '`). -/
def addedPre : Str := ['+', ' ']

/-- Two-character prefix of a differ hint line (`'? '`). -/
def hintPre : Str := ['?', ' ']

/-- Length of a longest common subsequence of two line lists. -/
def lcsLen : List Str → List Str → Nat
  | [], _ => 0
  | _ :: _, [] => 0
  | a :: as, b :: bs =>
    if a = b then lcsLen as bs + 1
    else max (lcsLen as (b :: bs)) (lcsLen (a :: as) bs)
  termination_by a b => a.length + b.length

/-- Modelled from the spec: the line-level edit script of the
longest-common-subsequence line differ. The source delegates this step to
Python `difflib.Differ().compare`, which is standard-library code outside
this repository; the spec describes it as a classic LCS-based differ that
emits, per line, a common (`'  '`), source-only (`'- '`) or target-only
(`'+ '`) entry, plus optional hint (`'? '`) entries that carry no content.
This model emits the LCS edit script and no hint entries. -/
def differ : List Str → List Str → List Str
  | [], bs => bs.map (fun b => addedPre ++ b)
  | a :: as, [] => (a :: as).map (fun x => removedPre ++ x)
  | a :: as, b :: bs =>
    if a = b then (commonPre ++ a) :: differ as bs
    else if lcsLen (a :: as) bs ≤ lcsLen as (b :: bs) then
      (removedPre ++ a) :: differ as (b :: bs)
    else
      (addedPre ++ b) :: differ (a :: as) bs
  termination_by a b => a.length + b.length

/-- Opening text of a rendered line, up to the class name
(`'<div class="line '`). -/
def divOpen : Str := ("<div class=\x22line ").data

/-- Text between the class name and the line content (`'">'`). -/
def quoteGt : Str := ("\x22>").data

/-- Closing tag of a rendered line (`'</div>'`). -/
def closeDiv : Str := ("</div>").data

/-- Class name `unchanged`. -/
def unchangedCls : Str := ("unchanged").data

/-- Class name `removed`. -/
def removedCls : Str := ("removed").data

/-- Class name `added`. -/
def addedCls : Str := ("added").data

/-- Opening of a rendered line of a given class
(`f'<div class="line {cls}">'`). -/
def lineDivPre (cls : Str) : Str := divOpen ++ cls ++ quoteGt

/-- A rendered line: `f'<div class="line {cls}">{content}</div>'`. -/
def lineDiv (cls content : Str) : Str := lineDivPre cls ++ content ++ closeDiv

/-- Whether a rendered line carries the given class, decided by its opening
text. -/
def divIsClassed (cls d : Str) : Bool := List.isPrefixOf (lineDivPre cls) d

/-- The renderer's `while i < len(diff)` loop (`_render_translated_model_as_html`):
walk the diff entries in order, appending each common line to both columns
as `unchanged`, each `'- '` line to the source column as `removed`, each
`'+ '` line to the target column as `added`, and skipping `'? '` hint lines
(and anything else). Returns `(source_html, target_html)`. -/
def renderWalk : List Str → List Str × List Str
  | [] => ([], [])
  | line :: rest =>
    let p := renderWalk rest
    if startswith line commonPre then
      (lineDiv unchangedCls (line.drop 2) :: p.1,
       lineDiv unchangedCls (line.drop 2) :: p.2)
    else if startswith line removedPre then
      (lineDiv removedCls (line.drop 2) :: p.1, p.2)
    else if startswith line addedPre then
      (p.1, lineDiv addedCls (line.drop 2) :: p.2)
    else if startswith line hintPre then
      p
    else
      p

/-- A `TranslatedModel` as returned inside `translated_models`. -/
structure TranslatedModel where
  asset_name : Str
  source_sql : Str
  target_sql : Option Str
  translation_status : Str
deriving DecidableEq

/-- The two classified line columns built by
`_render_translated_model_as_html` for a source text and a (possibly null)
target text: split both texts into lines, diff them, and walk the diff. -/
def renderColumns (source_sql : Str) (target_sql : Option Str) : List Str × List Str :=
  renderWalk (differ (splitlines source_sql) (splitlines (orEmpty target_sql)))

/-- Style header of the per-model diff panel (the f-string in
`_render_translated_model_as_html` up to the status interpolation). -/
def modelHtmlPre : Str := ("\n    <style>\n        .sql-container \x7b\n            display: flex;\n            gap: 20px;\n            font-family: monospace;\n        \x7d\n        .sql-column \x7b\n            flex: 1;\n            border: 1px solid #ddd;\n            padding: 15px;\n            background-color: #f5f5f5;\n            overflow-x: auto;\n        \x7d\n        .sql-column h3 \x7b\n            margin-top: 0;\n            color: #333;\n            font-family: sans-serif;\n        \x7d\n        .line \x7b\n            font-size: 12px;\n            line-height: 1.6;\n            padding: 2px 4px;\n            white-space: pre-wrap;\n        \x7d\n        .unchanged \x7b\n            background-color: transparent;\n        \x7d\n        .removed \x7b\n            background-color: #ffecec;\n            color: #d73a49;\n        \x7d\n        .added \x7b\n            background-color: #e6ffec;\n            color: #22863a;\n        \x7d\n    </style>\n\n    <p>Translation Status: <span class=\x22status\x22>").data

/-- Markup between the status and the source column content. -/
def modelHtmlMid1 : Str := ("</span></p>\n    <div class=\x22sql-container\x22>\n        <div class=\x22sql-column\x22>\n            <h3>Snowflake SQL</h3>\n            ").data

/-- Markup between the source column content and the target column content. -/
def modelHtmlMid2 : Str := ("\n        </div>\n        <div class=\x22sql-column\x22>\n            <h3>Databricks SQL</h3>\n            ").data

/-- Closing markup of the per-model diff panel. -/
def modelHtmlEnd : Str := ("\n        </div>\n    </div>\n    ").data

/-- `_render_translated_model_as_html`: diff the model's source and target
SQL and produce the two-column side-by-side HTML panel with the
translation status. -/
def _render_translated_model_as_html (m : TranslatedModel) : Str :=
  let cols := renderColumns m.source_sql m.target_sql
  modelHtmlPre ++ m.translation_status ++ modelHtmlMid1 ++ cols.1.flatten
    ++ modelHtmlMid2 ++ cols.2.flatten ++ modelHtmlEnd

/-- The translation-result dictionary observed by polling and consumed by
the report builder: `{status, translated_models}`. -/
structure TranslationResults where
  status : Str
  translated_models : List TranslatedModel
deriving DecidableEq

/-- Status string `done`. -/
def doneStr : Str := ("done").data

/-- Status string `failed`. -/
def failedStr : Str := ("failed").data

/-- Status string `pending`. -/
def pendingStr : Str := ("pending").data

/-- The polling loop of `_wait_for_translation_results`, run against the
stream of results the successive `get_data` fetches would return: fetch the
next result; if its status is in `["done", "failed"]` return it, else sleep
one interval and loop. Returns `some (result, fetches, sleeps)` with the
number of fetch calls issued and sleep intervals performed, or `none` when
the stream is exhausted without a terminal status (the real loop would
keep polling: it is unbounded). -/
def _wait_for_translation_results : List TranslationResults → Option (TranslationResults × Nat × Nat)
  | [] => none
  | r :: rest =>
    if r.status ∈ [doneStr, failedStr] then some (r, 1, 0)
    else
      match _wait_for_translation_results rest with
      | none => none
      | some (res, fetches, sleeps) => some (res, fetches + 1, sleeps + 1)

/-- Opening markup of one collapsible section of the report
(`_translation_results_html`), up to the asset name. -/
def sectionPre : Str := ("\n        <button class=\x22collapsible\x22 onclick=\x22toggleCollapse(this)\x22>\n            ").data

/-- Markup between the asset name and the rendered model panel. -/
def sectionMid : Str := ("\n        </button>\n        <div class=\x22content\x22>\n            ").data

/-- Closing markup of one collapsible section. -/
def sectionEnd : Str := ("\n        </div>\n        ").data

/-- One collapsible section of the report, for one translated model. -/
def modelSection (m : TranslatedModel) : Str :=
  sectionPre ++ m.asset_name ++ sectionMid ++ _render_translated_model_as_html m ++ sectionEnd

/-- The `style` block inserted at the head of a non-empty report. -/
def collapsibleStyle : Str := ("\n    <style>\n        .collapsible \x7b\n            background-color: #f1f1f1;\n            color: #333;\n            cursor: pointer;\n            padding: 18px;\n            width: 100%;\n            border: 1px solid #ddd;\n            text-align: left;\n            outline: none;\n            font-size: 16px;\n            font-family: sans-serif;\n            margin-top: 10px;\n            transition: background-color 0.3s;\n        \x7d\n        .collapsible:hover \x7b\n            background-color: #e0e0e0;\n        \x7d\n        .collapsible.active \x7b\n            background-color: #d0d0d0;\n        \x7d\n        .collapsible::before \x7b\n            content: \x27▶ \x27;\n            display: inline-block;\n            margin-right: 8px;\n            transition: transform 0.3s;\n        \x7d\n        .collapsible.active::before \x7b\n            transform: rotate(90deg);\n        \x7d\n        .content \x7b\n            padding: 0 18px;\n            max-height: 0;\n            overflow: hidden;\n            transition: max-height 0.3s ease-out;\n            background-color: white;\n        \x7d\n        .content.active \x7b\n            max-height: 10000px;\n            padding: 18px;\n        \x7d\n    </style>\n    ").data

/-- The `script` block inserted at the head of a non-empty report. -/
def collapsibleScript : Str := ("\n    <script>\n        function toggleCollapse(element) \x7b\n            element.classList.toggle(\x27active\x27);\n            const content = element.nextElementSibling;\n            content.classList.toggle(\x27active\x27);\n        \x7d\n    </script>\n    ").data

/-- `_translation_results_html`: build one collapsible section per model in
input order; if `translated_models` is empty return the fixed message,
otherwise insert the style and script blocks at position 0 and join. -/
def _translation_results_html (tr : TranslationResults) : Str :=
  let html := tr.translated_models.map modelSection
  if tr.translated_models = [] then ("No queries were translated.").data
  else (collapsibleStyle ++ collapsibleScript) ++ html.flatten

/-- A data source as returned by `/api/v1/data_sources`: `{id, type}`. -/
structure DataSource where
  id : Int
  type : Str
deriving DecidableEq

/-- The string `databricks`. -/
def databricksStr : Str := ("databricks").data

/-- Source selection in `translate_queries`:
`[d for d in data_sources if d['type'] != "databricks"][0]['id']`.
`none` models the `IndexError` Python raises when no match exists. -/
def source_data_source_id (ds : List DataSource) : Option Int :=
  ((ds.filter (fun d => d.type != databricksStr)).head?).map DataSource.id

/-- Target selection in `translate_queries`:
`[d for d in data_sources if d['type'] == "databricks"][0]['id']`. -/
def target_data_source_id (ds : List DataSource) : Option Int :=
  ((ds.filter (fun d => d.type == databricksStr)).head?).map DataSource.id

/-- A file in the upload payload of `_upload_queries`: `{filename, content}`. -/
structure QueryFile where
  filename : Str
  content : Str
deriving DecidableEq

/-- The `files` list of the `_upload_queries` payload: one file per query,
named `f"query_{i+1}.sql"` over `enumerate(queries)`, content the query. -/
def _upload_queries (queries : List Str) : List QueryFile :=
  queries.enum.map (fun p => ⟨("query_").data ++ Nat.toDigits 10 (p.1 + 1) ++ (".sql").data, p.2⟩)

/-- The module-level mutable state of `databricks_notebook/__init__.py`:
`_notebook_host` and `_current_api_key`. -/
structure ModuleState where
  notebook_host : Option Str
  current_api_key : Option Str
deriving DecidableEq

/-- `DEFAULT_HOST = "https://app.datafold.com"`. -/
def DEFAULT_HOST : Str := ("https://app.datafold.com").data

/-- `_get_host`: an explicit host is returned and cached in
`_notebook_host`; with no explicit host the cached host is returned when
set, else `DEFAULT_HOST`. Returns the resolved host and the new state. -/
def _get_host (host : Option Str) (st : ModuleState) : Str × ModuleState :=
  match host with
  | some h => (h, { st with notebook_host := some h })
  | none =>
    match st.notebook_host with
    | some h => (h, st)
    | none => (DEFAULT_HOST, st)

/-- `create_organization`: resolve the host, perform the remote `/org` call
(the external transport, passed as `remote : org_token → host → (api_token,
org_id)`), cache the returned API key via `_set_current_api_key`, and return
it. The final `Nat` counts remote calls performed (one). -/
def create_organization (remote : Str → Str → Str × Int) (org_token : Str)
    (host : Option Str) (st : ModuleState) : (Str × Int) × ModuleState × Nat :=
  let rh := _get_host host st
  let res := remote org_token rh.1
  ((res.1, res.2), { rh.2 with current_api_key := some res.1 }, 1)

/-- `_get_current_api_key`: return the cached key when set; else, when an
org token is supplied, resolve the host, create an organization (a remote
call) and cache and return its key; else return `None` without any remote
call. The final `Nat` counts remote calls performed. -/
def _get_current_api_key (remote : Str → Str → Str × Int) (org_token : Option Str)
    (host : Option Str) (st : ModuleState) : Option Str × ModuleState × Nat :=
  match st.current_api_key with
  | some k => (some k, st, 0)
  | none =>
    match org_token with
    | some tok =>
      let rh := _get_host host st
      let co := create_organization remote tok (some rh.1) rh.2
      (some co.1.1, { co.2.1 with current_api_key := some co.1.1 }, co.2.2)
    | none => (none, st, 0)

/-- Outcome of the entry gate of `translate_queries_and_render_results`. -/
inductive RenderOutcome where
  | valueErrorNoApiKey : RenderOutcome
  | proceeded : Str → RenderOutcome
deriving DecidableEq

/-- The entry gate of `translate_queries_and_render_results`: obtain the
current API key; if it is `None`, raise
`ValueError("API key is not set. ...")`; otherwise proceed into
`translate_queries` with the key (the subsequent remote workflow is beyond
this gate and not modelled). The final `Nat` counts remote calls performed
up to the gate. -/
def translate_queries_and_render_results (remote : Str → Str → Str × Int)
    (org_token : Option Str) (host : Option Str) (st : ModuleState) :
    RenderOutcome × ModuleState × Nat :=
  let gk := _get_current_api_key remote org_token host st
  match gk.1 with
  | none => (RenderOutcome.valueErrorNoApiKey, gk.2.1, gk.2.2)
  | some key => (RenderOutcome.proceeded key, gk.2.1, gk.2.2)

/-- Strip a known opening text and the closing `</div>` tag from a rendered
line, recovering its content. -/
def stripDiv (p d : Str) : Str :=
  (d.drop p.length).take ((d.drop p.length).length - closeDiv.length)

/-- Content of a rendered line: identify its class by its opening text and
strip the surrounding markup. -/
def divContent (d : Str) : Str :=
  if divIsClassed unchangedCls d then stripDiv (lineDivPre unchangedCls) d
  else if divIsClassed removedCls d then stripDiv (lineDivPre removedCls) d
  else if divIsClassed addedCls d then stripDiv (lineDivPre addedCls) d
  else d

/-! Helper lemmas. -/

/-- A list is a boolean prefix of itself followed by anything. -/
theorem isPrefixOf_append_self (p l : Str) : List.isPrefixOf p (p ++ l) = true := by
  induction p with
  | nil => simp [List.isPrefixOf]
  | cons a as ih => simp [List.isPrefixOf, ih]

/-- Boolean prefix testing ignores a shared leading segment. -/
theorem isPrefixOf_append_both (s p q : Str) :
    List.isPrefixOf (s ++ p) (s ++ q) = List.isPrefixOf p q := by
  induction s with
  | nil => simp
  | cons a as ih => simp [List.isPrefixOf, ih]

/-- A line carries the class it was rendered with. -/
theorem divIsClassed_self (cls c : Str) : divIsClassed cls (lineDiv cls c) = true := by
  unfold divIsClassed lineDiv
  rw [List.append_assoc]
  exact isPrefixOf_append_self _ _

/-- The polled status alternatives unfold membership in `[done, failed]`. -/
theorem mem_terminal_iff (s : Str) : s ∈ [doneStr, failedStr] ↔ s = doneStr ∨ s = failedStr := by
  simp

/-- C1: the polling loop of `_wait_for_translation_results` returns to its
caller only with a fetched result whose status is `done` or `failed`; a
`failed` result is returned as a normal value (`some`), never escalated as
an error. -/
theorem wait_returns_terminal_status (responses : List TranslationResults)
    (res : TranslationResults) (fetches sleeps : Nat)
    (h : _wait_for_translation_results responses = some (res, fetches, sleeps)) :
    res.status = doneStr ∨ res.status = failedStr := by
  induction responses generalizing fetches sleeps with
  | nil => simp [_wait_for_translation_results] at h
  | cons r rest ih =>
    rw [_wait_for_translation_results] at h
    by_cases hm : r.status ∈ [doneStr, failedStr]
    · rw [if_pos hm] at h
      obtain ⟨h1, -⟩ := Prod.mk.injEq .. ▸ (Option.some.injEq .. ▸ h)
      exact h1 ▸ (mem_terminal_iff r.status).mp hm
    · rw [if_neg hm] at h
      cases hrec : _wait_for_translation_results rest with
      | none => rw [hrec] at h; exact absurd h (by simp)
      | some v =>
        rw [hrec] at h
        obtain ⟨res2, f2, s2⟩ := v
        have := Option.some.inj h
        have hres : res2 = res := congrArg Prod.fst this
        exact ih f2 s2 (hres ▸ hrec)

/-- Witness for C1: a stream whose first status is `failed` makes the loop
return that result normally, and the theorem certifies its status is
terminal. -/
theorem wait_returns_terminal_status_witness :
    (TranslationResults.mk failedStr []).status = doneStr ∨
      (TranslationResults.mk failedStr []).status = failedStr :=
  wait_returns_terminal_status [TranslationResults.mk failedStr []]
    (TranslationResults.mk failedStr []) 1 0 (by decide)

/-- C2: on the polled status sequence `[pending, pending, done]` the loop
issues exactly 3 fetches, performs exactly 2 sleep intervals (so at most
2), and returns the result whose status is `done`, whatever the attached
models are. -/
theorem wait_pending_pending_done (m1 m2 m3 : List TranslatedModel) :
    _wait_for_translation_results
        [TranslationResults.mk pendingStr m1, TranslationResults.mk pendingStr m2,
         TranslationResults.mk doneStr m3]
      = some (TranslationResults.mk doneStr m3, 3, 2) := by
  have hp : pendingStr ∉ [doneStr, failedStr] := by decide
  have hd : doneStr ∈ [doneStr, failedStr] := by decide
  rw [_wait_for_translation_results, if_neg hp,
      _wait_for_translation_results, if_neg hp,
      _wait_for_translation_results, if_pos hd]

/-- C6: `translate_queries` selects as source the id of the first data
source whose type is not `databricks`, and as target the id of the first
data source whose type is `databricks`. -/
theorem data_source_selection_first_match (pre1 post1 pre2 post2 : List DataSource)
    (d t : DataSource)
    (h1 : ∀ e ∈ pre1, e.type = databricksStr) (h2 : d.type ≠ databricksStr)
    (h3 : ∀ e ∈ pre2, e.type ≠ databricksStr) (h4 : t.type = databricksStr) :
    source_data_source_id (pre1 ++ d :: post1) = some d.id ∧
      target_data_source_id (pre2 ++ t :: post2) = some t.id := by
  constructor
  · unfold source_data_source_id
    rw [List.filter_append, List.filter_eq_nil_iff.mpr (by
      intro e he
      simp [h1 e he])]
    simp [h2]
  · unfold target_data_source_id
    rw [List.filter_append, List.filter_eq_nil_iff.mpr (by
      intro e he
      simp [h3 e he])]
    simp [h4]

/-- Witness for C6: for `[{id:1,type:"snowflake"},{id:2,type:"databricks"}]`
the source id resolves to 1 and the target id to 2. -/
theorem data_source_selection_first_match_witness :
    source_data_source_id
        [DataSource.mk 1 (("snowflake").data), DataSource.mk 2 (("databricks").data)]
      = some 1 ∧
      target_data_source_id
        [DataSource.mk 1 (("snowflake").data), DataSource.mk 2 (("databricks").data)]
      = some 2 :=
  data_source_selection_first_match []
    [DataSource.mk 2 (("databricks").data)]
    [DataSource.mk 1 (("snowflake").data)] []
    (DataSource.mk 1 (("snowflake").data)) (DataSource.mk 2 (("databricks").data))
    (by simp) (by decide) (by decide) (by decide)

/-- C7: the upload payload of `_upload_queries` has one file per query in
input order, the i-th (0-based) named `query_<i+1>.sql` with content the
i-th query; the empty query list yields zero files; and
`["SELECT 1", "SELECT 2"]` yields `query_1.sql` and `query_2.sql` with
matching content, in that order. -/
theorem upload_queries_payload :
    (∀ queries : List Str,
        (_upload_queries queries).map QueryFile.content = queries ∧
        (_upload_queries queries).map QueryFile.filename
          = (List.range queries.length).map
              (fun i => ("query_").data ++ Nat.toDigits 10 (i + 1) ++ (".sql").data)) ∧
      _upload_queries [] = [] ∧
      _upload_queries [("SELECT 1").data, ("SELECT 2").data]
        = [QueryFile.mk (("query_1.sql").data) (("SELECT 1").data),
           QueryFile.mk (("query_2.sql").data) (("SELECT 2").data)] := by
  refine ⟨fun queries => ⟨?_, ?_⟩, by decide, by decide⟩
  · unfold _upload_queries
    rw [List.map_map]
    exact List.enum_map_snd queries
  · unfold _upload_queries
    rw [List.map_map, ← List.enum_map_fst queries, List.map_map]
    rfl

/-- C8: on an empty `translated_models` sequence, `_translation_results_html`
returns exactly the fixed string `No queries were translated.` — no style
block, script block or section markup. -/
theorem results_html_empty_models (tr : TranslationResults)
    (h : tr.translated_models = []) :
    _translation_results_html tr = ("No queries were translated.").data := by
  unfold _translation_results_html
  rw [if_pos h]

/-- Witness for C8: a concrete result dictionary with no translated models. -/
theorem results_html_empty_models_witness :
    _translation_results_html (TranslationResults.mk doneStr [])
      = ("No queries were translated.").data :=
  results_html_empty_models (TranslationResults.mk doneStr []) rfl

/-- C9: with no API key cached and no org token supplied,
`translate_queries_and_render_results` raises the explicit
`ValueError` — a checked failure taken before any remote call (zero remote
calls performed), with the module state untouched. -/
theorem render_results_requires_api_key (remote : Str → Str → Str × Int)
    (host : Option Str) (st : ModuleState) (h : st.current_api_key = none) :
    translate_queries_and_render_results remote none host st
      = (RenderOutcome.valueErrorNoApiKey, st, 0) := by
  unfold translate_queries_and_render_results _get_current_api_key
  rw [h]

/-- Witness for C9: the fresh module state with a concrete transport. -/
theorem render_results_requires_api_key_witness :
    translate_queries_and_render_results (fun _ h => (h, 0)) none none
        (ModuleState.mk none none)
      = (RenderOutcome.valueErrorNoApiKey, ModuleState.mk none none, 0) :=
  render_results_requires_api_key (fun _ h => (h, 0)) none (ModuleState.mk none none) rfl

/-- C10: `_get_host` is a lazily mutated module global: an explicit host is
returned and cached; a host-less call returns the cached host when one was
supplied, else the constant `DEFAULT_HOST`; and after any call with an
explicit host, a later host-less call resolves to that host. -/
theorem get_host_caching (st : ModuleState) (h : Str) :
    _get_host (some h) st = (h, { st with notebook_host := some h }) ∧
      _get_host none st = (st.notebook_host.getD DEFAULT_HOST, st) ∧
      (_get_host none ((_get_host (some h) st).2)).1 = h := by
  refine ⟨rfl, ?_, rfl⟩
  cases hn : st.notebook_host with
  | none => simp [_get_host, hn]
  | some h0 => simp [_get_host, hn]

/-- A common-line test fails on a source-only entry. -/
theorem pre_cr (l : Str) : List.isPrefixOf commonPre (removedPre ++ l) = false := by
  simp [commonPre, removedPre, List.isPrefixOf]

/-- A common-line test fails on a target-only entry. -/
theorem pre_ca (l : Str) : List.isPrefixOf commonPre (addedPre ++ l) = false := by
  simp [commonPre, addedPre, List.isPrefixOf]

/-- A source-only test fails on a target-only entry. -/
theorem pre_ra (l : Str) : List.isPrefixOf removedPre (addedPre ++ l) = false := by
  simp [removedPre, addedPre, List.isPrefixOf]

/-- A common-line test fails on a hint entry. -/
theorem pre_ch (l : Str) : List.isPrefixOf commonPre (hintPre ++ l) = false := by
  simp [commonPre, hintPre, List.isPrefixOf]

/-- A source-only test fails on a hint entry. -/
theorem pre_rh (l : Str) : List.isPrefixOf removedPre (hintPre ++ l) = false := by
  simp [removedPre, hintPre, List.isPrefixOf]

/-- A target-only test fails on a hint entry. -/
theorem pre_ah (l : Str) : List.isPrefixOf addedPre (hintPre ++ l) = false := by
  simp [addedPre, hintPre, List.isPrefixOf]

/-- Dropping the two marker characters of a common entry leaves the line. -/
theorem drop_two_common (l : Str) : (commonPre ++ l).drop 2 = l := rfl

/-- Dropping the two marker characters of a source-only entry leaves the line. -/
theorem drop_two_removed (l : Str) : (removedPre ++ l).drop 2 = l := rfl

/-- Dropping the two marker characters of a target-only entry leaves the line. -/
theorem drop_two_added (l : Str) : (addedPre ++ l).drop 2 = l := rfl

/-- One walk step on a common entry: the line is appended to both columns
as `unchanged`. -/
theorem renderWalk_common (l : Str) (rest : List Str) :
    renderWalk ((commonPre ++ l) :: rest)
      = (lineDiv unchangedCls l :: (renderWalk rest).1,
         lineDiv unchangedCls l :: (renderWalk rest).2) := by
  simp [renderWalk, startswith, isPrefixOf_append_self, drop_two_common]

/-- One walk step on a source-only entry: the line is appended to the
source column as `removed`. -/
theorem renderWalk_removed (l : Str) (rest : List Str) :
    renderWalk ((removedPre ++ l) :: rest)
      = (lineDiv removedCls l :: (renderWalk rest).1, (renderWalk rest).2) := by
  simp [renderWalk, startswith, isPrefixOf_append_self, pre_cr, drop_two_removed]

/-- One walk step on a target-only entry: the line is appended to the
target column as `added`. -/
theorem renderWalk_added (l : Str) (rest : List Str) :
    renderWalk ((addedPre ++ l) :: rest)
      = ((renderWalk rest).1, lineDiv addedCls l :: (renderWalk rest).2) := by
  simp [renderWalk, startswith, isPrefixOf_append_self, pre_ca, pre_ra, drop_two_added]

/-- One walk step on a hint entry: nothing is rendered. -/
theorem renderWalk_hint (l : Str) (rest : List Str) :
    renderWalk ((hintPre ++ l) :: rest) = renderWalk rest := by
  simp [renderWalk, startswith, isPrefixOf_append_self, pre_ch, pre_rh, pre_ah]

/-- Differ on an exhausted source emits the remaining target lines as
target-only entries. -/
theorem differ_nil_left (bs : List Str) :
    differ [] bs = bs.map (fun b => addedPre ++ b) := by
  rw [differ]

/-- Differ on an exhausted target emits the remaining source lines as
source-only entries. -/
theorem differ_nil_right (a : Str) (as : List Str) :
    differ (a :: as) [] = (a :: as).map (fun x => removedPre ++ x) := by
  rw [differ]

/-- Differ of a line list against itself emits every line as common. -/
theorem differ_self (a : List Str) : differ a a = a.map (fun l => commonPre ++ l) := by
  induction a with
  | nil => rw [differ]; rfl
  | cons x xs ih => rw [differ, if_pos rfl, ih]; rfl

/-- Walking an all-common script renders every line as `unchanged` in both
columns. -/
theorem renderWalk_all_common (ls : List Str) :
    renderWalk (ls.map (fun l => commonPre ++ l))
      = (ls.map (fun l => lineDiv unchangedCls l), ls.map (fun l => lineDiv unchangedCls l)) := by
  induction ls with
  | nil => rfl
  | cons x xs ih => rw [List.map_cons, renderWalk_common, ih]; rfl

/-- Walking an all-source-only script renders every line as `removed` and
leaves the target column empty. -/
theorem renderWalk_all_removed (ls : List Str) :
    renderWalk (ls.map (fun l => removedPre ++ l))
      = (ls.map (fun l => lineDiv removedCls l), []) := by
  induction ls with
  | nil => rfl
  | cons x xs ih => rw [List.map_cons, renderWalk_removed, ih]; rfl

/-- Walking an all-target-only script renders every line as `added` and
leaves the source column empty. -/
theorem renderWalk_all_added (ls : List Str) :
    renderWalk (ls.map (fun l => addedPre ++ l))
      = ([], ls.map (fun l => lineDiv addedCls l)) := by
  induction ls with
  | nil => rfl
  | cons x xs ih => rw [List.map_cons, renderWalk_added, ih]; rfl

/-- Stripping the markup of a rendered line recovers its content. -/
theorem stripDiv_lineDiv (cls c : Str) : stripDiv (lineDivPre cls) (lineDiv cls c) = c := by
  unfold stripDiv lineDiv
  rw [List.append_assoc, List.drop_left, List.length_append, Nat.add_sub_cancel,
    List.take_left]

/-- An `unchanged` test fails on a `removed` line. -/
theorem divIsClassed_ur (c : Str) : divIsClassed unchangedCls (lineDiv removedCls c) = false := by
  unfold divIsClassed lineDiv lineDivPre
  simp only [List.append_assoc, isPrefixOf_append_both]
  show List.isPrefixOf (['u', 'n', 'c', 'h', 'a', 'n', 'g', 'e', 'd'] ++ quoteGt)
    (['r', 'e', 'm', 'o', 'v', 'e', 'd'] ++ (quoteGt ++ (c ++ closeDiv))) = false
  simp [List.isPrefixOf]

/-- An `unchanged` test fails on an `added` line. -/
theorem divIsClassed_ua (c : Str) : divIsClassed unchangedCls (lineDiv addedCls c) = false := by
  unfold divIsClassed lineDiv lineDivPre
  simp only [List.append_assoc, isPrefixOf_append_both]
  show List.isPrefixOf (['u', 'n', 'c', 'h', 'a', 'n', 'g', 'e', 'd'] ++ quoteGt)
    (['a', 'd', 'd', 'e', 'd'] ++ (quoteGt ++ (c ++ closeDiv))) = false
  simp [List.isPrefixOf]

/-- A `removed` test fails on an `added` line. -/
theorem divIsClassed_ra (c : Str) : divIsClassed removedCls (lineDiv addedCls c) = false := by
  unfold divIsClassed lineDiv lineDivPre
  simp only [List.append_assoc, isPrefixOf_append_both]
  show List.isPrefixOf (['r', 'e', 'm', 'o', 'v', 'e', 'd'] ++ quoteGt)
    (['a', 'd', 'd', 'e', 'd'] ++ (quoteGt ++ (c ++ closeDiv))) = false
  simp [List.isPrefixOf]

/-- A `removed` test fails on an `unchanged` line. -/
theorem divIsClassed_ru (c : Str) : divIsClassed removedCls (lineDiv unchangedCls c) = false := by
  unfold divIsClassed lineDiv lineDivPre
  simp only [List.append_assoc, isPrefixOf_append_both]
  show List.isPrefixOf (['r', 'e', 'm', 'o', 'v', 'e', 'd'] ++ quoteGt)
    (['u', 'n', 'c', 'h', 'a', 'n', 'g', 'e', 'd'] ++ (quoteGt ++ (c ++ closeDiv))) = false
  simp [List.isPrefixOf]

/-- An `added` test fails on an `unchanged` line. -/
theorem divIsClassed_au (c : Str) : divIsClassed addedCls (lineDiv unchangedCls c) = false := by
  unfold divIsClassed lineDiv lineDivPre
  simp only [List.append_assoc, isPrefixOf_append_both]
  show List.isPrefixOf (['a', 'd', 'd', 'e', 'd'] ++ quoteGt)
    (['u', 'n', 'c', 'h', 'a', 'n', 'g', 'e', 'd'] ++ (quoteGt ++ (c ++ closeDiv))) = false
  simp [List.isPrefixOf]

/-- Content of an `unchanged` line. -/
theorem divContent_unchanged (c : Str) : divContent (lineDiv unchangedCls c) = c := by
  simp [divContent, divIsClassed_self, stripDiv_lineDiv]

/-- Content of a `removed` line. -/
theorem divContent_removed (c : Str) : divContent (lineDiv removedCls c) = c := by
  simp [divContent, divIsClassed_ur, divIsClassed_self, stripDiv_lineDiv]

/-- Content of an `added` line. -/
theorem divContent_added (c : Str) : divContent (lineDiv addedCls c) = c := by
  simp [divContent, divIsClassed_ua, divIsClassed_ra, divIsClassed_self, stripDiv_lineDiv]

/-- Hint entries anywhere in a diff script contribute no rendered content. -/
theorem renderWalk_skips_hints (pre post : List Str) (h : Str) :
    renderWalk (pre ++ (hintPre ++ h) :: post) = renderWalk (pre ++ post) := by
  induction pre with
  | nil => simp only [List.nil_append]; exact renderWalk_hint h post
  | cons x xs ih => simp only [List.cons_append, renderWalk, List.append_eq]; rw [ih]

/-- Walking the diff of two line lists yields a source column whose
contents are exactly the source lines (classed `unchanged` or `removed`)
and a target column whose contents are exactly the target lines (classed
`unchanged` or `added`), in order. -/
theorem renderWalk_differ_content (a b : List Str) :
    ((renderWalk (differ a b)).1).map divContent = a ∧
    ((renderWalk (differ a b)).2).map divContent = b ∧
    ((renderWalk (differ a b)).1).all
      (fun d => divIsClassed unchangedCls d || divIsClassed removedCls d) = true ∧
    ((renderWalk (differ a b)).2).all
      (fun d => divIsClassed unchangedCls d || divIsClassed addedCls d) = true := by
  induction a, b using differ.induct with
  | case1 bs =>
    rw [differ_nil_left, renderWalk_all_added]
    simp [List.map_map, Function.comp_def, divContent_added, divIsClassed_self]
  | case2 a as =>
    rw [differ_nil_right, renderWalk_all_removed]
    simp [List.map_map, Function.comp_def, divContent_removed, divIsClassed_self]
  | case3 as b bs ih =>
    rw [differ, if_pos rfl, renderWalk_common]
    obtain ⟨ih1, ih2, ih3, ih4⟩ := ih
    refine ⟨?_, ?_, ?_, ?_⟩
    · simp [divContent_unchanged, ih1]
    · simp [divContent_unchanged, ih2]
    · simp [divIsClassed_self, ih3]
    · simp [divIsClassed_self, ih4]
  | case4 a as b bs hab hle ih =>
    rw [differ, if_neg hab, if_pos hle, renderWalk_removed]
    obtain ⟨ih1, ih2, ih3, ih4⟩ := ih
    refine ⟨?_, ih2, ?_, ih4⟩
    · simp [divContent_removed, ih1]
    · simp [divIsClassed_self, ih3]
  | case5 a as b bs hab hle ih =>
    rw [differ, if_neg hab, if_neg hle, renderWalk_added]
    obtain ⟨ih1, ih2, ih3, ih4⟩ := ih
    refine ⟨ih1, ?_, ih3, ?_⟩
    · simp [divContent_added, ih2]
    · simp [divIsClassed_self, ih4]

/-- C3: when the source text equals the (null-coerced) target text, the
diff renderer emits zero lines classed `removed` and zero lines classed
`added` in either column, and every emitted line is classed `unchanged`. -/
theorem render_equal_texts_all_unchanged (m : TranslatedModel)
    (h : m.source_sql = orEmpty m.target_sql) :
    (renderColumns m.source_sql m.target_sql).1.countP (fun d => divIsClassed removedCls d) = 0 ∧
    (renderColumns m.source_sql m.target_sql).2.countP (fun d => divIsClassed removedCls d) = 0 ∧
    (renderColumns m.source_sql m.target_sql).1.countP (fun d => divIsClassed addedCls d) = 0 ∧
    (renderColumns m.source_sql m.target_sql).2.countP (fun d => divIsClassed addedCls d) = 0 ∧
    (renderColumns m.source_sql m.target_sql).1.all (fun d => divIsClassed unchangedCls d) = true ∧
    (renderColumns m.source_sql m.target_sql).2.all (fun d => divIsClassed unchangedCls d) = true := by
  unfold renderColumns
  rw [← h, differ_self, renderWalk_all_common]
  refine ⟨?_, ?_, ?_, ?_, ?_, ?_⟩ <;>
    simp [List.countP_map, List.all_map, Function.comp_def, divIsClassed_ru, divIsClassed_au,
      divIsClassed_self]

/-- Witness for C3: the one-line text `a` diffed against itself. -/
theorem render_equal_texts_all_unchanged_witness :
    (renderColumns (("a").data) (some (("a").data))).1.countP
        (fun d => divIsClassed removedCls d) = 0 ∧
      (renderColumns (("a").data) (some (("a").data))).2.countP
        (fun d => divIsClassed removedCls d) = 0 ∧
      (renderColumns (("a").data) (some (("a").data))).1.countP
        (fun d => divIsClassed addedCls d) = 0 ∧
      (renderColumns (("a").data) (some (("a").data))).2.countP
        (fun d => divIsClassed addedCls d) = 0 ∧
      (renderColumns (("a").data) (some (("a").data))).1.all
        (fun d => divIsClassed unchangedCls d) = true ∧
      (renderColumns (("a").data) (some (("a").data))).2.all
        (fun d => divIsClassed unchangedCls d) = true :=
  render_equal_texts_all_unchanged
    (TranslatedModel.mk [] (("a").data) (some (("a").data)) []) rfl

/-- C4: for every pair of texts, the source column of the diff renderer
contains, in emitted order, exactly the lines of the source text, each
classed `unchanged` or `removed`; the target column contains exactly the
lines of the target text, each classed `unchanged` or `added`; no line is
duplicated or dropped; and hint (`? `) entries in a diff script contribute
no rendered content to either column. -/
theorem render_columns_partition_lines (src tgt : Str) :
    ((renderColumns src (some tgt)).1).map divContent = splitlines src ∧
    ((renderColumns src (some tgt)).2).map divContent = splitlines tgt ∧
    ((renderColumns src (some tgt)).1).all
      (fun d => divIsClassed unchangedCls d || divIsClassed removedCls d) = true ∧
    ((renderColumns src (some tgt)).2).all
      (fun d => divIsClassed unchangedCls d || divIsClassed addedCls d) = true ∧
    ∀ (pre post : List Str) (hl : Str),
      renderWalk (pre ++ (hintPre ++ hl) :: post) = renderWalk (pre ++ post) := by
  have hm := renderWalk_differ_content (splitlines src) (splitlines tgt)
  exact ⟨hm.1, hm.2.1, hm.2.2.1, hm.2.2.2,
    fun pre post hl => renderWalk_skips_hints pre post hl⟩

/-- C5: an absent or empty target text yields an empty target line
sequence (not an error), and every line of the source text is rendered in
the source column classed `removed`. -/
theorem render_empty_target (m : TranslatedModel)
    (h : m.target_sql = none ∨ m.target_sql = some []) :
    renderColumns m.source_sql m.target_sql
      = ((splitlines m.source_sql).map (fun l => lineDiv removedCls l), []) := by
  have he : orEmpty m.target_sql = [] := by
    cases h with
    | inl h1 => rw [h1]; rfl
    | inr h1 => rw [h1]; rfl
  unfold renderColumns
  rw [he]
  show renderWalk (differ (splitlines m.source_sql) []) = _
  cases hs : splitlines m.source_sql with
  | nil => rw [differ]; rfl
  | cons x xs => rw [differ_nil_right, renderWalk_all_removed]

/-- Witness for C5: a one-line source with a null target renders that line
as `removed` and an empty target column. -/
theorem render_empty_target_witness :
    renderColumns (("a").data) none
      = ((splitlines (("a").data)).map (fun l => lineDiv removedCls l), []) :=
  render_empty_target (TranslatedModel.mk [] (("a").data) none []) (Or.inl rfl)
